import Mathlib

/-!
Verification of the JobAlign AI repository (ResuMatch-AI): a shallow
embedding of the React frontend helpers and pages, together with
spec-modelled definitions for the backend endpoints that the repository
documents but whose handler code is not present, and theorems settling
the behavioural claims about them.
-/

/-! ## JavaScript numeric primitives

The frontend manipulates scores with `Math.round`, `Math.min` and
`Math.max`.  Numbers are modelled as rationals; `Math.round` rounds to
the nearest integer with ties going toward positive infinity.
-/

def mathRound (q : ℚ) : ℤ := ⌊q + 1/2⌋

theorem mathRound_nonneg (q : ℚ) (h : 0 ≤ q) : 0 ≤ mathRound q := by
  unfold mathRound
  exact Int.le_floor.mpr (by push_cast; linarith)

theorem mathRound_le_hundred (q : ℚ) (h : q ≤ 100) : mathRound q ≤ 100 := by
  unfold mathRound
  have h101 : ⌊q + 1/2⌋ < 101 := Int.floor_lt.mpr (by push_cast; linarith)
  omega

theorem mathRound_intCast (n : ℤ) : mathRound (n : ℚ) = n := by
  unfold mathRound
  rw [Int.floor_int_add]
  norm_num

/-! ## Shared fetch helper (src/lib/utils.ts)

The `api` object wraps `fetch`: each helper checks `res.ok`, throws an
`Error` whose message is the response text when the status is not ok,
and otherwise returns the parsed JSON body.  A received HTTP response is
modelled by its `ok` flag, its text body and its (opaquely modelled)
parsed JSON body; throwing is modelled with `Except`.
-/

structure HttpResponse where
  ok : Bool
  textBody : String
  jsonBody : String
  deriving Repr, DecidableEq

def api_get (path : String) (res : HttpResponse) : Except String String :=
  if res.ok then Except.ok res.jsonBody else Except.error res.textBody

def api_postJson (path : String) (body : String) (res : HttpResponse) :
    Except String String :=
  if res.ok then Except.ok res.jsonBody else Except.error res.textBody

def api_postForm (path : String) (form : String) (res : HttpResponse) :
    Except String String :=
  if res.ok then Except.ok res.jsonBody else Except.error res.textBody

/-! ## JobMatch page (src/pages/JobMatch.tsx)

`handleAnalyze` rounds the `overall_match_score` returned by the match
endpoint before displaying it (line 55), and for a secondary resume it
computes the two one-sided missing-keyword difference lists
(lines 84 and 85).
-/

def handleAnalyze_displayedScore (overall_match_score : ℚ) : ℤ :=
  mathRound overall_match_score

def handleAnalyze_primaryOnly (missing1 missing2 : List String) : List String :=
  missing1.filter (fun kw => !(missing2.contains kw))

def handleAnalyze_secondaryOnly (missing1 missing2 : List String) : List String :=
  missing2.filter (fun kw => !(missing1.contains kw))

/-! ## JobRecommendations component (src/unnamed/part_002)

The badge for each recommended job displays `Math.round(job.match_score)`
(lines 167 and 168).
-/

def jobRecommendations_badgeScore (match_score : ℚ) : ℤ := mathRound match_score

/-! ## Matching endpoint and MatchHistory (backend, not under src/)

The FastAPI backend is not part of the source tree; only the frontend,
the API documentation and setup scripts are.
-/

/-- Modelled from the spec: the backend matching endpoint
(`POST /api/match/calculate`) is absent from the source tree; per the
spec, a match score returned by the matching endpoint is always within
[0, 100], so the endpoint result carries that invariant. -/
structure MatchEndpointResult where
  overall_match_score : ℚ
  score_nonneg : 0 ≤ overall_match_score
  score_le : overall_match_score ≤ 100

structure MatchHistoryRow where
  match_score : ℚ

/-- Modelled from the spec: the matching endpoint persists the computed
score into `MatchHistory.match_score`; the persistence code is absent
from the source tree. -/
def storeMatchHistory (r : MatchEndpointResult) : MatchHistoryRow :=
  ⟨r.overall_match_score⟩

/-! ## ResumeOptimizer page (src/pages/ResumeOptimizer.tsx)

`handleAnalyzeResume` either clamps a backend-provided `ats_score` to
[0, 100] (line 120) or, when the insights endpoint fails, computes a
heuristic score from the parsed resume structure and clamps it to
[20, 95] (lines 160 to 169).
-/

def handleAnalyzeResume_backendAts (providedAts : ℚ) : ℤ :=
  max 0 (min 100 (mathRound providedAts))

def handleAnalyzeResume_sectionsPresent
    (skillsLen expLen eduLen : ℕ) : ℕ :=
  (if skillsLen ≠ 0 then 1 else 0) + (if expLen ≠ 0 then 1 else 0) +
    (if eduLen ≠ 0 then 1 else 0)

def handleAnalyzeResume_rawScore
    (skillsLen expLen eduLen textLen : ℕ) : ℤ :=
  (50 + skillsLen * 3 + expLen * 4 +
    handleAnalyzeResume_sectionsPresent skillsLen expLen eduLen * 5 +
    (if textLen > 1200 then 5 else 0) : ℕ)

def handleAnalyzeResume_heuristicAts
    (skillsLen expLen eduLen textLen : ℕ) : ℤ :=
  max 20 (min 95
    (mathRound ((handleAnalyzeResume_rawScore skillsLen expLen eduLen textLen : ℤ) : ℚ)))

/-! ## OAuth popup flow (src/pages/Login.tsx)

`openPopup` opens a child window and returns a promise that is resolved
by the first of two sources: a `message` event whose data is an object
with a truthy `code` field (the handler then also closes the popup), or
a 500 ms poll observing that the popup window is closed (resolving with
`null`).  The events delivered to the page are modelled as a list in
arrival order; a message event carries `some c` when its data object has
a `code` field holding the string `c`, and `none` otherwise.  A poll
tick is recorded only when it observes the popup closed, since earlier
ticks have no effect.
-/

inductive PopupEvent where
  | message (code : Option String)
  | closedPoll
  deriving Repr, DecidableEq

structure PopupOutcome where
  resolved : Option (Option String)
  popupCloseCalled : Bool
  deriving Repr, DecidableEq

def openPopup_run : List PopupEvent → PopupOutcome
  | [] => ⟨none, false⟩
  | PopupEvent.message (some c) :: rest =>
      if c = "" then openPopup_run rest else ⟨some (some c), true⟩
  | PopupEvent.message none :: rest => openPopup_run rest
  | PopupEvent.closedPoll :: _ => ⟨some none, false⟩

/-- Effect of the `signInGoogle` success path: which code, if any, was
sent to `POST /api/auth/google`, and which (key, value) pair, if any,
was written to `localStorage`. -/
structure SignInEffect where
  exchangedCode : Option String
  stored : Option (String × String)
  deriving Repr, DecidableEq

def signInGoogle (code : Option String) (access_token : String) : SignInEffect :=
  match code with
  | none => ⟨none, none⟩
  | some c => if c = "" then ⟨none, none⟩ else ⟨some c, some ("token", access_token)⟩

/-! ## OAuth callback page (src/pages/Settings.tsx, second document)

`OAuthCallback` reads `code` and `state` from the query string and, when
the window has an opener and the code is truthy, posts `{ code, state }`
to the opener and closes itself.
-/

def oauthCallback_post (hasOpener : Bool) (code state : Option String) :
    Option (String × Option String) :=
  if hasOpener then
    match code with
    | some c => if c = "" then none else some (c, state)
    | none => none
  else none

/-! ## Enhanced fetch helper (src/components/Layout.tsx, second document)

`api.handleError` logs the error and, when the status is 401 and the
browser is not already on the login page, stores the current path under
`redirectAfterLogin` and navigates to `/login`.
-/

structure HandleErrorEffect where
  storedRedirectPath : Option String
  navigatedTo : Option String
  deriving Repr, DecidableEq

def api_handleError (status : Option ℤ) (pathname : String) : HandleErrorEffect :=
  if status = some 401 then
    if pathname ≠ "/login" then ⟨some pathname, some "/login"⟩
    else ⟨none, none⟩
  else ⟨none, none⟩

/-! ## LinkedIn connection (src/App.tsx, second document)

The `LinkedInConnection` component: `disconnectLinkedIn` posts to
`/api/linkedin/disconnect` and on success sets the local status to
`{ connected: false }` and calls `onConnectionChange(false)` when a
parent handler is present.
-/

structure LinkedInStatus where
  connected : Bool
  linkedin_id : Option String
  deriving Repr, DecidableEq

structure DisconnectEffect where
  newStatus : LinkedInStatus
  parentNotified : Option Bool
  deriving Repr, DecidableEq

def disconnectLinkedIn (hasOnConnectionChange : Bool) : DisconnectEffect :=
  ⟨⟨false, none⟩, if hasOnConnectionChange then some false else none⟩

/-- Modelled from the spec: the backend stores an optional LinkedIn
id/token on the user row; the backend code is absent from the source
tree. -/
structure BackendUser where
  linkedin_id : Option String
  linkedin_access_token : Option String
  deriving Repr, DecidableEq

/-- Modelled from the spec: `POST /api/linkedin/disconnect` clears the
stored LinkedIn identity; the handler code is absent from the source
tree. -/
def linkedin_disconnect (u : BackendUser) : BackendUser := ⟨none, none⟩

/-- Modelled from the spec: `GET /api/linkedin/status` reports connected
exactly when a LinkedIn identity is stored; the handler code is absent
from the source tree. -/
def linkedin_status (u : BackendUser) : LinkedInStatus :=
  ⟨u.linkedin_id.isSome, u.linkedin_id⟩

/-! ## Ownership of returned rows (backend, not under src/) -/

structure OwnedRow where
  user_id : ℕ
  payload : String
  deriving Repr, DecidableEq

/-- Modelled from the spec: every resource API read authorizes by
`user_id` ownership, returning only rows owned by the authenticated
caller; the handler code is absent from the source tree. -/
def api_listOwned (caller_user_id : ℕ) (table : List OwnedRow) : List OwnedRow :=
  table.filter (fun r => r.user_id == caller_user_id)

/-! ## Bearer-token authentication (backend, not under src/) -/

inductive BearerToken where
  | missing
  | expired (payload : String)
  | valid (user_id : ℕ)
  deriving Repr, DecidableEq

/-- Modelled from the spec: every authenticated endpoint first
authenticates the bearer token, answering 401 for a missing or expired
token; the handler code is absent from the source tree. -/
def authenticate : BearerToken → Except ℕ ℕ
  | BearerToken.missing => Except.error 401
  | BearerToken.expired _ => Except.error 401
  | BearerToken.valid uid => Except.ok uid

/-- Modelled from the spec: an authenticated endpoint runs its handler
only after authentication succeeds. -/
def authedEndpoint (handler : ℕ → String) (t : BearerToken) : Except ℕ String :=
  (authenticate t).map handler

/-! ## Route guard (src/components/RequireAuth.tsx)

`RequireAuth` reads the token from `localStorage` and navigates to
`/login` when it is empty. -/

def RequireAuth_redirect (token : String) : Option String :=
  if token = "" then some "/login" else none

/-! ## Claims -/

/-- Claim C1: every match score produced by the matching flow lies in
[0, 100]: the endpoint value (spec-modelled invariant), the stored
`MatchHistory.match_score`, the rounded score the JobMatch page displays
after `handleAnalyze`, and the rounded badge score of the
JobRecommendations component. -/
theorem C1_match_score_in_range (r : MatchEndpointResult) :
    (0 ≤ (storeMatchHistory r).match_score ∧
      (storeMatchHistory r).match_score ≤ 100) ∧
    (0 ≤ handleAnalyze_displayedScore r.overall_match_score ∧
      handleAnalyze_displayedScore r.overall_match_score ≤ 100) ∧
    (0 ≤ jobRecommendations_badgeScore r.overall_match_score ∧
      jobRecommendations_badgeScore r.overall_match_score ≤ 100) := by
  refine ⟨⟨r.score_nonneg, r.score_le⟩, ⟨?_, ?_⟩, ⟨?_, ?_⟩⟩ <;>
    first
      | exact mathRound_nonneg _ r.score_nonneg
      | exact mathRound_le_hundred _ r.score_le

/-- Claim C2: when the popup is closed before any message carrying a
truthy authorization code arrives, `openPopup` resolves with null and
does not close the popup itself, and the sign-in function performs no
token exchange and writes nothing to localStorage. -/
theorem C2_popup_closed_no_token (pre post : List PopupEvent) (tok : String)
    (h : ∀ c, PopupEvent.message (some c) ∈ pre → c = "") :
    openPopup_run (pre ++ PopupEvent.closedPoll :: post) =
      ⟨some none, false⟩ ∧
    signInGoogle none tok = ⟨none, none⟩ := by
  refine ⟨?_, rfl⟩
  induction pre with
  | nil => rfl
  | cons e tl ih =>
    cases e with
    | message mc =>
      cases mc with
      | none =>
        simpa [openPopup_run] using
          ih (fun c hc => h c (List.mem_cons_of_mem _ hc))
      | some c =>
        have hc : c = "" := h c (List.mem_cons_self _ _)
        subst hc
        simpa [openPopup_run] using
          ih (fun c hc => h c (List.mem_cons_of_mem _ hc))
    | closedPoll => rfl

theorem C2_popup_closed_no_token_witness :
    openPopup_run
        ([PopupEvent.message none] ++ PopupEvent.closedPoll :: []) =
      ⟨some none, false⟩ ∧
    signInGoogle none "tok123" = ⟨none, none⟩ :=
  C2_popup_closed_no_token [PopupEvent.message none] [] "tok123"
    (by intro c hc; simp at hc)

/-- Claim C4: when the child window posts a message carrying a truthy
authorization code (which `OAuthCallback` does exactly when it has an
opener and a truthy code parameter), `openPopup` resolves with that code
and closes the popup, and the sign-in function exchanges the code via
the auth endpoint and stores the returned access token in localStorage
under the key `token`. -/
theorem C4_popup_code_signs_in (pre post : List PopupEvent)
    (c : String) (st : Option String) (tok : String)
    (hc : c ≠ "")
    (hpre : ∀ c2, PopupEvent.message (some c2) ∈ pre → c2 = "")
    (hclosed : PopupEvent.closedPoll ∉ pre) :
    oauthCallback_post true (some c) st = some (c, st) ∧
    openPopup_run (pre ++ PopupEvent.message (some c) :: post) =
      ⟨some (some c), true⟩ ∧
    signInGoogle (some c) tok = ⟨some c, some ("token", tok)⟩ := by
  refine ⟨by simp [oauthCallback_post, hc], ?_, by simp [signInGoogle, hc]⟩
  induction pre with
  | nil => simp [openPopup_run, hc]
  | cons e tl ih =>
    cases e with
    | message mc =>
      cases mc with
      | none =>
        simpa [openPopup_run] using
          ih (fun c2 h2 => hpre c2 (List.mem_cons_of_mem _ h2))
            (fun h2 => hclosed (List.mem_cons_of_mem _ h2))
      | some c2 =>
        have hc2 : c2 = "" := hpre c2 (List.mem_cons_self _ _)
        subst hc2
        simpa [openPopup_run] using
          ih (fun c2 h2 => hpre c2 (List.mem_cons_of_mem _ h2))
            (fun h2 => hclosed (List.mem_cons_of_mem _ h2))
    | closedPoll => exact absurd (List.mem_cons_self _ _) hclosed

theorem C4_popup_code_signs_in_witness :
    oauthCallback_post true (some "authcode") (some "st1") =
      some ("authcode", some "st1") ∧
    openPopup_run
        ([PopupEvent.message none] ++
          PopupEvent.message (some "authcode") :: []) =
      ⟨some (some "authcode"), true⟩ ∧
    signInGoogle (some "authcode") "tok456" =
      ⟨some "authcode", some ("token", "tok456")⟩ :=
  C4_popup_code_signs_in [PopupEvent.message none] [] "authcode"
    (some "st1") "tok456" (by decide)
    (by intro c2 h2; simp at h2) (by decide)

/-- Claim C3, counterexample: a 401 received while the browser is
already on the login page neither stores the current path nor
redirects, so the claim as stated fails at pathname `/login`. -/
theorem C3_counterexample :
    api_handleError (some 401) "/login" = ⟨none, none⟩ ∧
    ¬ ((api_handleError (some 401) "/login").storedRedirectPath =
          some "/login" ∧
        (api_handleError (some 401) "/login").navigatedTo =
          some "/login") := by
  decide

/-- Claim C3, amended: for every API call made through the shared fetch
helper that receives an HTTP 401 response while the browser is not
already on the login page, the SPA stores the current path under
`redirectAfterLogin` and redirects to `/login`; when already on
`/login` it does neither. -/
theorem C3_amended_401_redirect (status : Option ℤ) (pathname : String)
    (h401 : status = some 401) (hpath : pathname ≠ "/login") :
    api_handleError status pathname = ⟨some pathname, some "/login"⟩ := by
  subst h401
  simp [api_handleError, hpath]

theorem C3_amended_401_redirect_witness :
    api_handleError (some 401) "/dashboard" =
      ⟨some "/dashboard", some "/login"⟩ :=
  C3_amended_401_redirect (some 401) "/dashboard" rfl (by decide)

/-- Claim C5: a row returned by a resource API read belongs to the
authenticated caller, so for two distinct users the response of one
never contains a row whose `user_id` references the other
(spec-modelled backend). -/
theorem C5_no_cross_user_leakage (u v : ℕ) (table : List OwnedRow)
    (r : OwnedRow) (huv : u ≠ v) (hr : r ∈ api_listOwned u table) :
    r.user_id = u ∧ r.user_id ≠ v := by
  unfold api_listOwned at hr
  have hu : r.user_id = u := by
    simpa using (List.of_mem_filter hr)
  exact ⟨hu, by simpa [hu] using huv⟩

theorem C5_no_cross_user_leakage_witness :
    (⟨1, "row-a"⟩ : OwnedRow).user_id = 1 ∧
    (⟨1, "row-a"⟩ : OwnedRow).user_id ≠ 2 :=
  C5_no_cross_user_leakage 1 2 [⟨1, "row-a"⟩, ⟨2, "row-b"⟩] ⟨1, "row-a"⟩
    (by decide) (by decide)

/-- Claim C6: after a successful disconnect LinkedIn call the stored
identity is cleared and the status endpoint reports not connected
(spec-modelled backend), and the frontend `disconnectLinkedIn` sets the
connection state to connected = false and notifies its parent with
connected = false. -/
theorem C6_disconnect_clears_identity (u : BackendUser)
    (hasHandler : Bool) (hh : hasHandler = true) :
    (linkedin_status (linkedin_disconnect u)).connected = false ∧
    (disconnectLinkedIn hasHandler).newStatus =
      ⟨false, none⟩ ∧
    (disconnectLinkedIn hasHandler).parentNotified = some false := by
  subst hh
  exact ⟨rfl, rfl, rfl⟩

theorem C6_disconnect_clears_identity_witness :
    (linkedin_status
        (linkedin_disconnect ⟨some "li-123", some "li-tok"⟩)).connected =
      false ∧
    (disconnectLinkedIn true).newStatus = ⟨false, none⟩ ∧
    (disconnectLinkedIn true).parentNotified = some false :=
  C6_disconnect_clears_identity ⟨some "li-123", some "li-tok"⟩ true rfl

/-- Claim C7: for every authenticated endpoint, a request with a missing
or expired bearer token receives HTTP 401 and the handler never runs
(spec-modelled backend). -/
theorem C7_missing_or_expired_401 (handler : ℕ → String)
    (t : BearerToken)
    (h : t = BearerToken.missing ∨ ∃ p, t = BearerToken.expired p) :
    authedEndpoint handler t = Except.error 401 := by
  rcases h with h | ⟨p, h⟩ <;> subst h <;> rfl

theorem C7_missing_or_expired_401_witness :
    authedEndpoint (fun _ => "dashboard-json") BearerToken.missing =
      Except.error 401 :=
  C7_missing_or_expired_401 (fun _ => "dashboard-json")
    BearerToken.missing (Or.inl rfl)

/-- Claim C8: each shared API helper throws exactly when the response is
not ok, with the error message taken from the response body text, and
returns the parsed JSON body when the response is ok. -/
theorem C8_api_throws_iff_not_ok (path body form : String)
    (res : HttpResponse) :
    (res.ok = true ∧
      api_get path res = Except.ok res.jsonBody ∧
      api_postJson path body res = Except.ok res.jsonBody ∧
      api_postForm path form res = Except.ok res.jsonBody) ∨
    (res.ok = false ∧
      api_get path res = Except.error res.textBody ∧
      api_postJson path body res = Except.error res.textBody ∧
      api_postForm path form res = Except.error res.textBody) := by
  cases hok : res.ok with
  | true =>
    exact Or.inl ⟨rfl, by simp [api_get, hok], by simp [api_postJson, hok],
      by simp [api_postForm, hok]⟩
  | false =>
    exact Or.inr ⟨rfl, by simp [api_get, hok], by simp [api_postJson, hok],
      by simp [api_postForm, hok]⟩

/-- Claim C9: in the secondary-resume comparison, `primaryOnly` holds
exactly the keywords of the primary missing list absent from the
secondary one, `secondaryOnly` the converse, and no keyword is in
both. -/
theorem C9_comparison_partition (m1 m2 : List String) (kw : String) :
    (kw ∈ handleAnalyze_primaryOnly m1 m2 ↔ kw ∈ m1 ∧ kw ∉ m2) ∧
    (kw ∈ handleAnalyze_secondaryOnly m1 m2 ↔ kw ∈ m2 ∧ kw ∉ m1) ∧
    ¬ (kw ∈ handleAnalyze_primaryOnly m1 m2 ∧
        kw ∈ handleAnalyze_secondaryOnly m1 m2) := by
  refine ⟨by simp [handleAnalyze_primaryOnly],
    by simp [handleAnalyze_secondaryOnly], ?_⟩
  rintro ⟨h1, h2⟩
  simp [handleAnalyze_primaryOnly] at h1
  simp [handleAnalyze_secondaryOnly] at h2
  exact h1.2 h2.1

/-- Claim C10: the ATS score displayed by ResumeOptimizer is an integer
in [0, 100]: a backend-provided `ats_score` is rounded and clamped to
[0, 100], and the client-side heuristic fallback score is rounded and
clamped to [20, 95]. -/
theorem C10_ats_score_bounds (providedAts : ℚ)
    (skillsLen expLen eduLen textLen : ℕ) :
    (0 ≤ handleAnalyzeResume_backendAts providedAts ∧
      handleAnalyzeResume_backendAts providedAts ≤ 100) ∧
    (20 ≤ handleAnalyzeResume_heuristicAts skillsLen expLen eduLen textLen ∧
      handleAnalyzeResume_heuristicAts skillsLen expLen eduLen textLen ≤ 95) ∧
    (0 ≤ handleAnalyzeResume_heuristicAts skillsLen expLen eduLen textLen ∧
      handleAnalyzeResume_heuristicAts skillsLen expLen eduLen textLen ≤ 100) := by
  unfold handleAnalyzeResume_backendAts handleAnalyzeResume_heuristicAts
  generalize mathRound providedAts = a
  generalize mathRound
    ((handleAnalyzeResume_rawScore skillsLen expLen eduLen textLen : ℤ) : ℚ) = b
  omega
